import Mathlib

/-!
Verification of the manipulation tool layer of the `meld4` repository
(`src/src/rai/rai/tools/ros/manipulation.py`).

Coordinates are embedded as rationals (`ℚ`): the Python code works with
IEEE doubles, whose arithmetic on the values at stake (additions of
decimal constants, `np.max`) is modelled here by exact field arithmetic.
Gripper states are the booleans of `ManipulatorMoveTo.Request`
(`True` = open, `False` = closed, per the source comments).
-/

namespace Manip

/-- `geometry_msgs.msg.Point`: (x, y, z) coordinates. -/
structure Point where
  x : ℚ
  y : ℚ
  z : ℚ
deriving DecidableEq, Repr

/-- `geometry_msgs.msg.Quaternion` (fields x, y, z, w).
The ROS message default is the identity quaternion (0, 0, 0, 1). -/
structure Quat where
  x : ℚ
  y : ℚ
  z : ℚ
  w : ℚ
deriving DecidableEq, Repr

/-- Default `Quaternion()` of `geometry_msgs`: identity (x=0, y=0, z=0, w=1). -/
def identQuat : Quat := ⟨0, 0, 0, 1⟩

/-- `geometry_msgs.msg.Pose`: position plus orientation. -/
structure Pose where
  position : Point
  orientation : Quat
deriving DecidableEq, Repr

/-- `geometry_msgs.msg.PoseStamped`: a pose tagged with the frame it is
expressed in (`header.frame_id`). -/
structure PoseStamped where
  frame_id : String
  pose : Pose
deriving DecidableEq, Repr

/-- The static configuration of `MoveToPointTool` (its pydantic fields,
`manipulation.py` lines 58-71), with the source defaults. -/
structure MoveToPointTool where
  manipulator_frame : String
  min_z : ℚ := 135 / 1000
  calibration_x : ℚ := 0
  calibration_y : ℚ := 0
  calibration_z : ℚ := 0
  additional_height : ℚ := 5 / 100
  quaternion : Quat :=
    ⟨9238795325112867 / 10 ^ 16, -(3826834323650898 / 10 ^ 16), 0, 0⟩
deriving DecidableEq, Repr

/-- `rai_interfaces.srv.ManipulatorMoveTo.Request`: target pose plus the
initial and final gripper states (`True` = open, `False` = closed). -/
structure MoveRequest where
  target_pose : PoseStamped
  initial_gripper_state : Bool
  final_gripper_state : Bool
deriving DecidableEq, Repr

/-- The z clamp of `manipulation.py` lines 106-108:
`pose.position.z = np.max([pose.position.z, self.min_z])`. -/
def clampZ (tool : MoveToPointTool) (v : ℚ) : ℚ :=
  max v tool.min_z

/-- The request-building prefix of `MoveToPointTool._run`
(`manipulation.py` lines 92-118), translated statement by statement:
start from (x, y, z) with the constant quaternion; if `task == "place"`
add `additional_height` to z; add the calibration offsets; clamp z from
below by `min_z`; set the gripper pair from `task == "grab"`.
`task` is a string because the Python code compares strings; the tool's
input schema (`MoveToPointToolInput`) only admits `"grab"` and `"drop"`. -/
def buildRequest (tool : MoveToPointTool) (x y z : ℚ) (task : String) :
    MoveRequest :=
  let z1 : ℚ := if task == "place" then z + tool.additional_height else z
  let x2 : ℚ := x + tool.calibration_x
  let y2 : ℚ := y + tool.calibration_y
  let z2 : ℚ := z1 + tool.calibration_z
  let z3 : ℚ := clampZ tool z2
  { target_pose :=
      { frame_id := tool.manipulator_frame
        pose := { position := ⟨x2, y2, z3⟩, orientation := tool.quaternion } }
    initial_gripper_state := if task == "grab" then true else false
    final_gripper_state := if task == "grab" then false else true }

/-- `rai_interfaces.srv.ManipulatorMoveTo.Response`: a success flag. -/
structure MoveToResponse where
  success : Bool
deriving DecidableEq, Repr

/-- The three caller-facing outcomes of `MoveToPointTool._run`
(lines 127-134), each carrying the coordinates it reports. -/
inductive MoveOutcome where
  | succeeded (x y z : ℚ)
  | rejected (x y z : ℚ)
  | timedOut (x y z : ℚ)
deriving DecidableEq, Repr

/-- The response interpretation of `MoveToPointTool._run` lines 127-134:
`future.result()` absent (no response within the 5-second deadline of
`spin_until_future_complete`) is the service-call-failed outcome;
otherwise `response.success` selects success or failure. -/
def interpretResponse (x y z : ℚ) (result : Option MoveToResponse) :
    MoveOutcome :=
  match result with
  | some response =>
      if response.success then .succeeded x y z else .rejected x y z
  | none => .timedOut x y z

/-- The literal result strings of `_run` lines 130-134 (the `:.2f`
rendering of the floats is abstracted by `toString` of the rationals). -/
def renderOutcome : MoveOutcome → String
  | .succeeded x y z =>
      s!"End effector successfully positioned at coordinates ({x}, {y}, {z}). Note: The status of object interaction (grab/drop) is not confirmed by this movement."
  | .rejected x y z =>
      s!"Failed to position end effector at coordinates ({x}, {y}, {z})."
  | .timedOut x y z =>
      s!"Service call failed for point ({x}, {y}, {z})."

/-- The coordinates an outcome reports. -/
def MoveOutcome.coords : MoveOutcome → ℚ × ℚ × ℚ
  | .succeeded x y z => (x, y, z)
  | .rejected x y z => (x, y, z)
  | .timedOut x y z => (x, y, z)

/-- The dispatch half of `MoveToPointTool._run` (lines 120-134) as an
outcome: the external motion service is the oracle `service`, whose
`none` answer models the future being incomplete when the 5-second wait
of `spin_until_future_complete` elapses. -/
def runOutcome (tool : MoveToPointTool) (x y z : ℚ) (task : String)
    (service : MoveRequest → Option MoveToResponse) : MoveOutcome :=
  interpretResponse x y z (service (buildRequest tool x y z task))

/-- `MoveToPointTool._run` end to end: build the request, dispatch it,
render the outcome string. -/
def MoveToPointTool.runWith (tool : MoveToPointTool) (x y z : ℚ)
    (task : String) (service : MoveRequest → Option MoveToResponse) :
    String :=
  renderOutcome (runOutcome tool x y z task service)

/-- A rigid transform as returned by `TF2TransformFetcher.get_data()`
(a `TransformStamped`): rotation quaternion plus translation vector,
tagged with its frames. -/
structure Transform where
  source_frame : String
  target_frame : String
  rotation : Quat
  translation : Point
deriving DecidableEq, Repr

/-- Hamilton product of two quaternions. -/
def quatMul (q r : Quat) : Quat :=
  ⟨q.w * r.x + q.x * r.w + q.y * r.z - q.z * r.y,
   q.w * r.y - q.x * r.z + q.y * r.w + q.z * r.x,
   q.w * r.z + q.x * r.y - q.y * r.x + q.z * r.w,
   q.w * r.w - q.x * r.x - q.y * r.y - q.z * r.z⟩

/-- Quaternion conjugate. -/
def quatConj (q : Quat) : Quat := ⟨-q.x, -q.y, -q.z, q.w⟩

/-- A quaternion is a unit quaternion. -/
def IsUnitQuat (q : Quat) : Prop :=
  q.x ^ 2 + q.y ^ 2 + q.z ^ 2 + q.w ^ 2 = 1

instance (q : Quat) : Decidable (IsUnitQuat q) := by
  unfold IsUnitQuat
  infer_instance

/-- Action of the rotation matrix derived from a quaternion on a point:
the standard matrix `R(q)` applied to `p`. This is how the `tf2` /
PyKDL stack (`PyKDL.Rotation.Quaternion`) applies a transform's
rotation to a position. -/
def rotApply (q : Quat) (p : Point) : Point :=
  ⟨(1 - 2 * (q.y ^ 2 + q.z ^ 2)) * p.x + 2 * (q.x * q.y - q.w * q.z) * p.y
      + 2 * (q.x * q.z + q.w * q.y) * p.z,
   2 * (q.x * q.y + q.w * q.z) * p.x + (1 - 2 * (q.x ^ 2 + q.z ^ 2)) * p.y
      + 2 * (q.y * q.z - q.w * q.x) * p.z,
   2 * (q.x * q.z - q.w * q.y) * p.x + 2 * (q.y * q.z + q.w * q.x) * p.y
      + (1 - 2 * (q.x ^ 2 + q.y ^ 2)) * p.z⟩

/-- The point `p` embedded as a pure quaternion (zero real part). -/
def pureQuat (p : Point) : Quat := ⟨p.x, p.y, p.z, 0⟩

/-- The vector part of the sandwich product `q * (0, p) * conj q`:
the reference quaternion-rotation formula. -/
def quatSandwich (q : Quat) (p : Point) : Point :=
  let s := quatMul (quatMul q (pureQuat p)) (quatConj q)
  ⟨s.x, s.y, s.z⟩

/-- Componentwise sum of two points (used for the translation step). -/
def addPoints (p q : Point) : Point := ⟨p.x + q.x, p.y + q.y, p.z + q.z⟩

/-- `tf2_geometry_msgs.do_transform_pose`, the library dependency the
source calls at `manipulation.py` line 191: the position is rotated by
the transform's rotation and then translated; the orientation is the
quaternion product of the transform's rotation with the pose's
orientation (KDL frame composition). -/
def do_transform_pose (pose : Pose) (t : Transform) : Pose :=
  { position := addPoints (rotApply t.rotation pose.position) t.translation
    orientation := quatMul t.rotation pose.orientation }

/-- The static configuration of `GetObjectPositionsTool`
(`manipulation.py` lines 151-155). -/
structure GetObjectPositionsTool where
  target_frame : String
  source_frame : String
  camera_topic : String
  depth_topic : String
  camera_info_topic : String
deriving DecidableEq, Repr

/-- Failure of the transform lookup (`TF2TransformFetcher.get_data()`
raising when no path between the frames is known). -/
inductive TransformError where
  | transformUnavailable
deriving DecidableEq, Repr

/-- The pose pipeline of `GetObjectPositionsTool._run` lines 182-192:
each detection result's camera-frame point becomes a `Pose` with the
message-default (identity) orientation, and each pose is mapped through
`do_transform_pose` with the fetched transform. -/
def mani_frame_poses (transform : Transform) (results : List Point) :
    List Pose :=
  let poses := results.map fun cam_pose =>
    ({ position := cam_pose, orientation := identQuat } : Pose)
  poses.map fun pose => do_transform_pose pose transform

/-- `GetObjectPositionsTool.format_pose` (lines 166-168), with the
Python float formatting abstracted by `toString` of the rationals. -/
def format_pose (pose : Pose) : String :=
  s!"Centroid(x={pose.position.x}, y={pose.position.y}, z={pose.position.z})"

/-- `GetObjectPositionsTool._run` (lines 170-197). The transform fetch
happens first; an exception from it propagates (the `.error` channel)
before the detection service is consulted. `results` stands for the
list returned by `get_grabbing_point_tool._run` — each entry's first
component, the camera-frame centroid. An empty detection list yields
the distinct no-detections string on the `.ok` channel. -/
def GetObjectPositionsTool.runWith (_tool : GetObjectPositionsTool)
    (fetched : Except TransformError Transform) (results : List Point)
    (object_name : String) : Except TransformError String :=
  match fetched with
  | .error e => .error e
  | .ok transform =>
      let mani := mani_frame_poses transform results
      if mani.length = 0 then
        .ok s!"No {object_name}s detected."
      else
        .ok ("Centroids of detected " ++ object_name ++
          "s in manipulator frame: [" ++
          String.intercalate ", " (mani.map format_pose) ++
          "]. Sizes of the detected objects are unknown.")

/-- The `MoveToPointTool` instance of `examples/manipulation-demo.py`:
`manipulator_frame="panda_link0"`, all other fields at their defaults. -/
def demoTool : MoveToPointTool := { manipulator_frame := "panda_link0" }

/-- For a unit quaternion, the derived rotation matrix agrees with the
sandwich-product rotation formula. -/
theorem rotApply_eq_quatSandwich (q : Quat) (p : Point)
    (h : IsUnitQuat q) : rotApply q p = quatSandwich q p := by
  obtain ⟨qx, qy, qz, qw⟩ := q
  obtain ⟨px, py, pz⟩ := p
  simp only [IsUnitQuat] at h
  simp only [rotApply, quatSandwich, quatMul, quatConj, pureQuat,
    Point.mk.injEq]
  refine ⟨?_, ?_, ?_⟩
  · linear_combination (-px) * h
  · linear_combination (-py) * h
  · linear_combination (-pz) * h

/-- C1: the claim says a `drop` request's z is
`max(z + additional_height + calibration_z, min_z)`, with z = 0.2
yielding 0.25 under the defaults. The code adds `additional_height`
only when `task == "place"` (`manipulation.py` line 99), a value the
input schema `MoveToPointToolInput` does not admit, so for the `drop`
task the height is never added: with the demo configuration and raw
z = 1/5, the built request's z is 1/5, not 1/4; the 1/4 result only
appears for the schema-forbidden string `"place"`. -/
theorem C1_drop_ignores_additional_height :
    (buildRequest demoTool 1 (1 / 2) (1 / 5) "drop").target_pose.pose.position.z
        = 1 / 5
      ∧ ((1 : ℚ) / 5 ≠ 1 / 4)
      ∧ (buildRequest demoTool 1 (1 / 2) (1 / 5) "place").target_pose.pose.position.z
        = 1 / 4 := by
  refine ⟨?_, by norm_num, ?_⟩
  · norm_num [buildRequest, clampZ, demoTool]
    rw [if_neg (by decide)]
    norm_num
  · norm_num [buildRequest, clampZ, demoTool]

/-- C2: for every configuration and every (x, y, z), `task = "grab"`
builds a request whose gripper transition is initial = open (`true`)
and final = closed (`false`), and whose z coordinate is
`max (z + calibration_z) min_z` — `additional_height` is not added. -/
theorem C2_grab_open_to_closed_calibration_only
    (tool : MoveToPointTool) (x y z : ℚ) :
    (buildRequest tool x y z "grab").initial_gripper_state = true
      ∧ (buildRequest tool x y z "grab").final_gripper_state = false
      ∧ (buildRequest tool x y z "grab").target_pose.pose.position.z
        = max (z + tool.calibration_z) tool.min_z := by
  exact ⟨rfl, rfl, rfl⟩

/-- C3: a service that produces no response within the deadline (the
oracle answers `none`) makes the dispatch return the timed-out outcome
(rendered as the "Service call failed" string), never the rejected or
succeeded one; a response with `success = false` yields the rejected
outcome, `success = true` the succeeded outcome; every dispatch lands
in exactly one of these three outcomes, which are pairwise distinct. -/
theorem C3_dispatch_outcomes (tool : MoveToPointTool) (x y z : ℚ)
    (task : String) (service : MoveRequest → Option MoveToResponse) :
    (service (buildRequest tool x y z task) = none →
        runOutcome tool x y z task service = .timedOut x y z
          ∧ MoveToPointTool.runWith tool x y z task service
            = s!"Service call failed for point ({x}, {y}, {z}).")
      ∧ (∀ r, service (buildRequest tool x y z task) = some r →
          runOutcome tool x y z task service
            = if r.success then .succeeded x y z else .rejected x y z)
      ∧ (runOutcome tool x y z task service = .timedOut x y z
          ∨ runOutcome tool x y z task service = .rejected x y z
          ∨ runOutcome tool x y z task service = .succeeded x y z)
      ∧ (∀ a b c : ℚ, MoveOutcome.timedOut a b c ≠ .rejected a b c
          ∧ MoveOutcome.timedOut a b c ≠ .succeeded a b c
          ∧ MoveOutcome.rejected a b c ≠ .succeeded a b c) := by
  refine ⟨fun h => ?_, fun r h => ?_, ?_, fun a b c => by simp⟩
  · constructor
    · simp [runOutcome, interpretResponse, h]
    · simp [MoveToPointTool.runWith, runOutcome, interpretResponse, h,
        renderOutcome]
  · simp only [runOutcome, interpretResponse, h]
  · unfold runOutcome interpretResponse
    rcases service (buildRequest tool x y z task) with _ | r
    · simp
    · rcases hr : r.success <;> simp [hr]

/-- C3 witness: with the demo configuration, a silent service yields
the timed-out outcome, and a `success = true` response the succeeded
one. -/
theorem C3_dispatch_outcomes_witness :
    runOutcome demoTool 1 2 3 "grab" (fun _ => none)
        = .timedOut 1 2 3
      ∧ runOutcome demoTool 1 2 3 "grab" (fun _ => some ⟨true⟩)
        = .succeeded 1 2 3 := by
  constructor
  · exact ((C3_dispatch_outcomes demoTool 1 2 3 "grab" fun _ => none).1
      rfl).1
  · have h := (C3_dispatch_outcomes demoTool 1 2 3 "grab"
      fun _ => some ⟨true⟩).2.1 ⟨true⟩ rfl
    simpa using h

/-- C4: for every configuration, input and task string, the built
request's z coordinate is at least `min_z`, and it equals the clamp
applied to the value obtained from the prior offsets (the clamp is the
last numeric step). -/
theorem C4_z_at_least_min_z (tool : MoveToPointTool) (x y z : ℚ)
    (task : String) :
    tool.min_z ≤ (buildRequest tool x y z task).target_pose.pose.position.z
      ∧ (buildRequest tool x y z task).target_pose.pose.position.z
        = clampZ tool
            ((if task == "place" then z + tool.additional_height else z)
              + tool.calibration_z) := by
  refine ⟨?_, rfl⟩
  simp only [buildRequest, clampZ]
  exact le_max_right _ _

/-- C5: a transform-lookup failure propagates on the error channel
regardless of the detection results (the transform is resolved first),
while a successful lookup with zero detections returns the distinct
"No {object}s detected." success string; the two outcomes differ. -/
theorem C5_no_detections_vs_transform_failure
    (tool : GetObjectPositionsTool) (e : TransformError)
    (results : List Point) (t : Transform) (name : String) :
    tool.runWith (.error e) results name = .error e
      ∧ tool.runWith (.ok t) [] name = .ok s!"No {name}s detected."
      ∧ tool.runWith (.ok t) [] name ≠ tool.runWith (.error e) results name := by
  refine ⟨rfl, rfl, ?_⟩
  simp [GetObjectPositionsTool.runWith, mani_frame_poses]

/-- C6: for every configuration and input, `task = "drop"` builds a
request whose gripper transition is initial = closed (`false`) and
final = open (`true`). -/
theorem C6_drop_closed_to_open (tool : MoveToPointTool) (x y z : ℚ) :
    (buildRequest tool x y z "drop").initial_gripper_state = false
      ∧ (buildRequest tool x y z "drop").final_gripper_state = true :=
  ⟨rfl, rfl⟩

/-- C7 counterexample: the claim says the pose's orientation is carried
through `do_transform_pose` unchanged. For the transform with rotation
(1, 0, 0, 0) (a half-turn about x) and zero translation, the detected
pose with the message-default identity orientation comes out with
orientation (1, 0, 0, 0) ≠ identity. -/
theorem C7_orientation_not_carried_unchanged :
    (do_transform_pose ⟨⟨1, 2, 3⟩, identQuat⟩
        ⟨"RGBDCamera5", "panda_link0", ⟨1, 0, 0, 0⟩, ⟨0, 0, 0⟩⟩).orientation
      ≠ (Pose.mk ⟨1, 2, 3⟩ identQuat).orientation := by
  norm_num [do_transform_pose, quatMul, identQuat, Quat.mk.injEq]

/-- C7 amended: applying the resolved transform (with a unit rotation
quaternion, as tf transforms carry) rotates then translates the
position — agreeing with the reference rigid-body formula, here the
quaternion sandwich rotation followed by the translation — while the
output orientation is the transform's rotation composed with the
pose's orientation, not the input orientation unchanged. -/
theorem C7_transform_action (t : Transform) (pose : Pose)
    (h : IsUnitQuat t.rotation) :
    (do_transform_pose pose t).position
        = addPoints (quatSandwich t.rotation pose.position) t.translation
      ∧ (do_transform_pose pose t).orientation
        = quatMul t.rotation pose.orientation := by
  refine ⟨?_, rfl⟩
  simp only [do_transform_pose, rotApply_eq_quatSandwich t.rotation
    pose.position h]

/-- C7 witness: the amended statement at a concrete unit rotation and
detected pose. -/
theorem C7_transform_action_witness :
    (do_transform_pose ⟨⟨1, 2, 3⟩, identQuat⟩
          ⟨"RGBDCamera5", "panda_link0", ⟨1, 0, 0, 0⟩, ⟨4, 5, 6⟩⟩).position
        = addPoints
            (quatSandwich ⟨1, 0, 0, 0⟩ ⟨1, 2, 3⟩) ⟨4, 5, 6⟩
      ∧ (do_transform_pose ⟨⟨1, 2, 3⟩, identQuat⟩
          ⟨"RGBDCamera5", "panda_link0", ⟨1, 0, 0, 0⟩, ⟨4, 5, 6⟩⟩).orientation
        = quatMul ⟨1, 0, 0, 0⟩ identQuat :=
  C7_transform_action
    ⟨"RGBDCamera5", "panda_link0", ⟨1, 0, 0, 0⟩, ⟨4, 5, 6⟩⟩
    ⟨⟨1, 2, 3⟩, identQuat⟩ (by norm_num [IsUnitQuat])

/-- C8: the locate pipeline produces exactly one manipulator-frame pose
per detection, the i-th output being the transform applied to the i-th
detection; and on a non-empty detection list `_run` returns the
centroid string rendered from that list in order. -/
theorem C8_one_pose_per_detection_in_order
    (tool : GetObjectPositionsTool) (transform : Transform)
    (results : List Point) (name : String) :
    (mani_frame_poses transform results).length = results.length
      ∧ (∀ i : ℕ, (mani_frame_poses transform results)[i]?
          = (results[i]?).map fun cam_pose =>
              do_transform_pose ⟨cam_pose, identQuat⟩ transform)
      ∧ (results ≠ [] →
          tool.runWith (.ok transform) results name
            = .ok ("Centroids of detected " ++ name ++
                "s in manipulator frame: [" ++
                String.intercalate ", "
                  ((mani_frame_poses transform results).map format_pose) ++
                "]. Sizes of the detected objects are unknown.")) := by
  refine ⟨by simp [mani_frame_poses], fun i => ?_, fun hne => ?_⟩
  · simp [mani_frame_poses, Function.comp_def]
  · have hlen : (mani_frame_poses transform results).length ≠ 0 := by
      simpa [mani_frame_poses] using hne
    simp [GetObjectPositionsTool.runWith, hlen]

/-- C8 witness: the order-preservation statement at a concrete
two-element detection list. -/
theorem C8_one_pose_per_detection_in_order_witness :
    (mani_frame_poses
          ⟨"RGBDCamera5", "panda_link0", identQuat, ⟨1, 0, 0⟩⟩
          [⟨1, 2, 3⟩, ⟨4, 5, 6⟩]).length = 2
      ∧ (mani_frame_poses
          ⟨"RGBDCamera5", "panda_link0", identQuat, ⟨1, 0, 0⟩⟩
          [⟨1, 2, 3⟩, ⟨4, 5, 6⟩])[1]?
        = some (do_transform_pose ⟨⟨4, 5, 6⟩, identQuat⟩
            ⟨"RGBDCamera5", "panda_link0", identQuat, ⟨1, 0, 0⟩⟩) := by
  have h := C8_one_pose_per_detection_in_order
    ⟨"panda_link0", "RGBDCamera5", "/color_image5", "/depth_image5",
      "/color_camera_info5"⟩
    ⟨"RGBDCamera5", "panda_link0", identQuat, ⟨1, 0, 0⟩⟩
    [⟨1, 2, 3⟩, ⟨4, 5, 6⟩] "cube"
  exact ⟨h.1, h.2.1 1⟩

/-- C9: every dispatch outcome carries the originally requested
coordinates (x, y, z) — for every configuration (hence for every
calibration and clamp setting) and every service behavior. -/
theorem C9_outcome_reports_original_coords (tool : MoveToPointTool)
    (x y z : ℚ) (task : String)
    (service : MoveRequest → Option MoveToResponse) :
    (runOutcome tool x y z task service).coords = (x, y, z) := by
  unfold runOutcome interpretResponse
  rcases service (buildRequest tool x y z task) with _ | r
  · rfl
  · rcases hr : r.success <;> simp [hr, MoveOutcome.coords]

/-- C10: the z clamp of the builder is idempotent: clamping an
already-clamped value is a no-op. -/
theorem C10_clamp_idempotent (tool : MoveToPointTool) (v : ℚ) :
    clampZ tool (clampZ tool v) = clampZ tool v := by
  simp [clampZ, max_assoc]

end Manip
